import Mathlib

/-!
Verification of the smart-crop application (TypeScript source) against its
natural-language specification.  JavaScript numbers are modelled as exact
rationals (ℚ); strings manipulated character-by-character are modelled as
`List Char`.  React component state is modelled by explicit state records and
pure transition functions; asynchronous collaborators (file reader, remote
detector, image decoder, canvas export) are passed in as explicit
`Except`-valued outcomes, mirroring the `try`/`catch` structure of the source.
-/

namespace SmartCrop

/-- `BoundingBox` from `types.ts`: detector coordinates normalized to 0–1000. -/
structure BoundingBox where
  ymin : ℚ
  xmin : ℚ
  ymax : ℚ
  xmax : ℚ
deriving DecidableEq

/-- `CropRect` from `types.ts`: square region `[x, x+size] × [y, y+size]` in
source-image pixel units. -/
structure CropRect where
  x : ℚ
  y : ℚ
  size : ℚ
deriving DecidableEq

/-- `calculateSmartCrop` from `utils/imageHelpers.ts`: converts the normalized
box to pixels, takes the larger dimension plus 10 % padding as the square size,
and centres the square on the box's centre. -/
def calculateSmartCrop (box : BoundingBox) (imgWidth imgHeight : ℚ) : CropRect :=
  let rawYmin := box.ymin / 1000 * imgHeight
  let rawXmin := box.xmin / 1000 * imgWidth
  let rawYmax := box.ymax / 1000 * imgHeight
  let rawXmax := box.xmax / 1000 * imgWidth
  let width := rawXmax - rawXmin
  let height := rawYmax - rawYmin
  let centerX := rawXmin + width / 2
  let centerY := rawYmin + height / 2
  let paddingPercent : ℚ := 1 / 10
  let baseSize := max width height
  let size := baseSize * (1 + paddingPercent)
  let x := centerX - size / 2
  let y := centerY - size / 2
  { x := x, y := y, size := size }

/-- `handleSizeChange` from the `CropEditor` component: slider resize.  The
source guards on `imgElement` being present; `imgLoaded` models that guard.
When the image is loaded, the origin shifts by `(oldSize - newSize)/2` on each
axis so the centre stays fixed. -/
def handleSizeChange (imgLoaded : Bool) (crop : CropRect) (newSize : ℚ) : CropRect :=
  if !imgLoaded then crop
  else
    let oldCenter := crop.size / 2
    let newCenter := newSize / 2
    let offset := oldCenter - newCenter
    { x := crop.x + offset, y := crop.y + offset, size := newSize }

/-- Drag anchors captured by `handleMouseDown`: the pointer's screen position
and the crop origin at the moment the drag started. -/
structure DragState where
  dragStart : ℚ × ℚ
  startCropPos : ℚ × ℚ
deriving DecidableEq

/-- `handleMouseDown` from the `CropEditor` component: starts a drag, anchoring
the current pointer position and crop origin. -/
def handleMouseDown (client : ℚ × ℚ) (crop : CropRect) : DragState :=
  { dragStart := client, startCropPos := (crop.x, crop.y) }

/-- `handleMouseMove` from the `CropEditor` component.  Guards mirror the
source: no drag in progress, image not loaded (`imgNaturalWidth = none`),
container not mounted (`containerWidth = none`), or zero rendered width all
leave the crop unchanged.  Otherwise the origin is recomputed from the anchors
plus the screen delta scaled by `naturalWidth / renderedWidth`. -/
def handleMouseMove (isDragging : Bool) (imgNaturalWidth containerWidth : Option ℚ)
    (st : DragState) (client : ℚ × ℚ) (prev : CropRect) : CropRect :=
  if !isDragging then prev
  else
    match imgNaturalWidth, containerWidth with
    | some nw, some rw =>
      if rw = 0 then prev
      else
        let deltaX := client.1 - st.dragStart.1
        let deltaY := client.2 - st.dragStart.2
        let scale := nw / rw
        { prev with
            x := st.startCropPos.1 + deltaX * scale,
            y := st.startCropPos.2 + deltaY * scale }
    | _, _ => prev

/-- An edit inside the `CropEditor`: either a mouse move during a drag (with
the anchors fixed at mouse-down) or a slider change.  Both act only on the
editor's local `crop` state. -/
inductive EditorEvent where
  | drag (st : DragState) (client : ℚ × ℚ)
  | resize (newSize : ℚ)
deriving DecidableEq

/-- How one editor event updates the editor-local crop, with the editor's
image element and container (as in the source, both may be absent). -/
def applyEdit (imgNaturalWidth containerWidth : Option ℚ) (c : CropRect) :
    EditorEvent → CropRect
  | .drag st client =>
      handleMouseMove true imgNaturalWidth containerWidth st client c
  | .resize s => handleSizeChange imgNaturalWidth.isSome c s

/-- The editor-local crop after a sequence of drag and resize edits, starting
from `initialCrop` (the committed crop handed to the editor). -/
def runEditor (imgNaturalWidth containerWidth : Option ℚ) (initialCrop : CropRect)
    (edits : List EditorEvent) : CropRect :=
  edits.foldl (applyEdit imgNaturalWidth containerWidth) initialCrop

/-- `GarmentDetails` from `types.ts`; `textureBox` is optional to model the
`details.textureBox || details.box` fallback in `processImage`. -/
structure GarmentDetails where
  box : BoundingBox
  textureBox : Option BoundingBox
  texture : List Char
  color : List Char
deriving DecidableEq

/-- `AppState` from `types.ts`. -/
inductive AppState where
  | IDLE
  | ANALYZING
  | CROPPING
  | EDITING
  | SUCCESS
  | ERROR
deriving DecidableEq

/-- The `App` component's state variables. -/
structure AppSession where
  appState : AppState
  sourceImage : Option String
  croppedImage : Option String
  garmentDetails : Option GarmentDetails
  currentCrop : Option CropRect
  errorMsg : Option String
  originalFileName : List Char
deriving DecidableEq

/-- The `err.message || "Failed to process image."` fallback in
`processImage`'s catch block (an empty message is falsy in JavaScript). -/
def errMessageOrDefault (msg : String) : String :=
  if msg = "" then "Failed to process image." else msg

/-- `processImage` from `App.tsx`.  The awaited collaborators are passed in as
outcomes: `detectRes` for `detectGarment`, `loadRes` for `loadImage` (its
natural width and height), `renderRes` for `performCrop`.  Any thrown error
falls into the single catch block, which records the message and moves to the
ERROR state; state already set before the throw stays set. -/
def processImage (detectRes : Except String GarmentDetails)
    (loadRes : Except String (ℚ × ℚ)) (renderRes : Except String String)
    (s : AppSession) : AppSession :=
  match detectRes with
  | .error msg => { s with errorMsg := some (errMessageOrDefault msg), appState := .ERROR }
  | .ok details =>
    let s1 := { s with garmentDetails := some details, appState := .CROPPING }
    match loadRes with
    | .error msg =>
        { s1 with errorMsg := some (errMessageOrDefault msg), appState := .ERROR }
    | .ok (w, h) =>
      let targetBox := details.textureBox.getD details.box
      let smartCrop := calculateSmartCrop targetBox w h
      let s2 := { s1 with currentCrop := some smartCrop }
      match renderRes with
      | .ok url => { s2 with croppedImage := some url, appState := .SUCCESS }
      | .error msg =>
          { s2 with errorMsg := some (errMessageOrDefault msg), appState := .ERROR }

/-- The JavaScript regex `/\.[^\x7b/.]+$/`-style extension strip from
`handleFileUpload` (`file.name.replace(/\.[^/.]+$/, "")`): remove a final dot
followed by one or more characters none of which is a dot or a slash;
otherwise leave the name unchanged. -/
def stripExt (name : List Char) : List Char :=
  let rev := name.reverse
  let pre := rev.takeWhile (fun c => c ≠ '.' && c ≠ '/')
  let rest := rev.dropWhile (fun c => c ≠ '.' && c ≠ '/')
  match rest with
  | '.' :: rs => if pre = [] then name else rs.reverse
  | _ => name

/-- `handleFileUpload` from `App.tsx`: clears per-image state, stores the
extension-stripped name, then on a successful read stores the data URL and
runs `processImage`; a read failure is terminal with a fixed message.
`fileName` is the selected file's name; `readRes` is the `fileToBase64`
outcome. -/
def handleFileUpload (fileName : List Char) (readRes : Except String String)
    (detectRes : Except String GarmentDetails) (loadRes : Except String (ℚ × ℚ))
    (renderRes : Except String String) (s : AppSession) : AppSession :=
  let s0 := { s with
    appState := .ANALYZING,
    croppedImage := none,
    garmentDetails := none,
    currentCrop := none,
    errorMsg := none,
    originalFileName := stripExt fileName }
  match readRes with
  | .error _ =>
      { s0 with errorMsg := some "Failed to load image file.", appState := .ERROR }
  | .ok base64 => processImage detectRes loadRes renderRes { s0 with sourceImage := some base64 }

/-- `handleManualCropConfirm` from `App.tsx`: no-op without a source image;
otherwise commits the new crop, enters CROPPING, and renders.  On render
success it stores the result and enters SUCCESS; on failure it only records
the error message (the source does not change `appState` in this catch). -/
def handleManualCropConfirm (s : AppSession) (newCrop : CropRect)
    (renderRes : Except String String) : AppSession :=
  match s.sourceImage with
  | none => s
  | some _ =>
    let s1 := { s with appState := .CROPPING, currentCrop := some newCrop }
    match renderRes with
    | .ok url => { s1 with croppedImage := some url, appState := .SUCCESS }
    | .error _ => { s1 with errorMsg := some "Failed to apply manual crop" }

/-- The editor's cancel wiring in `App.tsx`:
`onCancel=\x7b() => setAppState(AppState.SUCCESS)\x7d` — it only changes the
app state, touching no other session field. -/
def cancelEditor (s : AppSession) : AppSession :=
  { s with appState := .SUCCESS }

/-- The sanitizer in `handleDownload`:
`garmentDetails.color.replace(/[^a-zA-Z0-9-]/g, '')` keeps exactly the ASCII
alphanumeric characters and hyphens. -/
def sanitizeColor (color : List Char) : List Char :=
  color.filter (fun c => c.isAlphanum || c == '-')

/-- `handleDownload` from `App.tsx`: returns the download filename, or `none`
when there is no cropped image.  The color suffix is present only when
`garmentDetails?.color` is truthy (details present and color non-empty). -/
def handleDownload (s : AppSession) : Option (List Char) :=
  match s.croppedImage with
  | none => none
  | some _ =>
    let colorPart : List Char :=
      match s.garmentDetails with
      | some d => if d.color = [] then [] else '_' :: sanitizeColor d.color
      | none => []
    some (s.originalFileName ++ colorPart ++ ".jpg".toList)

/-- An RGBA color of the output canvas. -/
structure Color where
  r : ℕ
  g : ℕ
  b : ℕ
  a : ℕ
deriving DecidableEq

/-- Opaque white, the `#FFFFFF` fill of `performCrop`. -/
def whiteColor : Color := { r := 255, g := 255, b := 255, a := 255 }

/-- A decoded source image: pixel dimensions and the color sampled at a point
in its coordinate space. -/
structure SourceImage where
  width : ℚ
  height : ℚ
  pixel : ℚ → ℚ → Color

/-- `ctx.fillRect(0, 0, outputSize, outputSize)` after `fillStyle = c`: every
output pixel becomes `c`. -/
def fillRect (c : Color) : ℕ → ℕ → Color := fun _ _ => c

/-- Canvas `drawImage(img, crop.x, crop.y, crop.size, crop.size, 0, 0, N, N)`
semantics for one destination pixel, modelling the 2D-context behavior the
source relies on: the destination pixel `(dx, dy)` samples the source at the
centre of its preimage rectangle; samples outside the source image bounds
contribute nothing (the existing canvas content stays visible), and a
zero-size source rectangle draws nothing. -/
def drawImagePixel (img : SourceImage) (crop : CropRect) (outputSize : ℕ)
    (canvas : ℕ → ℕ → Color) (dx dy : ℕ) : Color :=
  if crop.size = 0 then canvas dx dy
  else
    let sx := crop.x + ((dx : ℚ) + 1 / 2) * crop.size / (outputSize : ℚ)
    let sy := crop.y + ((dy : ℚ) + 1 / 2) * crop.size / (outputSize : ℚ)
    if 0 ≤ sx ∧ sx < img.width ∧ 0 ≤ sy ∧ sy < img.height then img.pixel sx sy
    else canvas dx dy

/-- `performCrop` from `utils/imageHelpers.ts` as a pixel function: fill the
whole `outputSize × outputSize` surface with opaque white, then draw the
`(crop.x, crop.y, crop.size, crop.size)` region of the source scaled onto the
whole surface. -/
def performCrop (img : SourceImage) (crop : CropRect) (outputSize : ℕ) :
    ℕ → ℕ → Color :=
  fun dx dy => drawImagePixel img crop outputSize (fillRect whiteColor) dx dy

/-- A drag session: mouse-down (anchoring pointer position and crop origin)
followed by a sequence of mouse-move events, each updating the crop through
`handleMouseMove`. -/
def runDrag (imgNaturalWidth containerWidth : Option ℚ) (downClient : ℚ × ℚ)
    (c : CropRect) (moves : List (ℚ × ℚ)) : CropRect :=
  let st := handleMouseDown downClient c
  moves.foldl (fun acc m => handleMouseMove true imgNaturalWidth containerWidth st m acc) c

/-- A session as it stands right after a successful upload read, before
detection: per-image state cleared, source image stored. -/
def sessionFresh : AppSession :=
  { appState := .ANALYZING, sourceImage := some "data-url", croppedImage := none,
    garmentDetails := none, currentCrop := none, errorMsg := none,
    originalFileName := "photo".toList }

/-- A concrete detection result using the spec's example box, with no texture
box so the garment box is the crop target. -/
def detailsEx : GarmentDetails :=
  { box := ⟨100, 200, 500, 600⟩, textureBox := none,
    texture := "cotton".toList, color := "Blue".toList }

/-- A session holding a cropped image, the extension-stripped name of
"photo.png", and detected color "Navy Blue!". -/
def sessionDownloadEx : AppSession :=
  { appState := .SUCCESS, sourceImage := some "data-url",
    croppedImage := some "crop-url",
    garmentDetails := some { box := ⟨100, 200, 500, 600⟩, textureBox := none,
                             texture := "cotton".toList,
                             color := "Navy Blue!".toList },
    currentCrop := none, errorMsg := none,
    originalFileName := stripExt "photo.png".toList }

/-- A concrete 100×100 all-black source image. -/
def imgEx : SourceImage :=
  { width := 100, height := 100, pixel := fun _ _ => { r := 0, g := 0, b := 0, a := 255 } }

/-! ### Helper lemmas -/

lemma calculateSmartCrop_size_eq (box : BoundingBox) (W H : ℚ) :
    (calculateSmartCrop box W H).size =
      max (box.xmax / 1000 * W - box.xmin / 1000 * W)
        (box.ymax / 1000 * H - box.ymin / 1000 * H) * (11 / 10) := by
  simp only [calculateSmartCrop]
  norm_num

lemma calculateSmartCrop_x_eq (box : BoundingBox) (W H : ℚ) :
    (calculateSmartCrop box W H).x =
      box.xmin / 1000 * W + (box.xmax / 1000 * W - box.xmin / 1000 * W) / 2
        - (calculateSmartCrop box W H).size / 2 := by
  simp only [calculateSmartCrop]

lemma calculateSmartCrop_y_eq (box : BoundingBox) (W H : ℚ) :
    (calculateSmartCrop box W H).y =
      box.ymin / 1000 * H + (box.ymax / 1000 * H - box.ymin / 1000 * H) / 2
        - (calculateSmartCrop box W H).size / 2 := by
  simp only [calculateSmartCrop]

lemma calculateSmartCrop_example :
    calculateSmartCrop ⟨100, 200, 500, 600⟩ 1000 1000 = ⟨180, 80, 440⟩ := by
  simp only [calculateSmartCrop, CropRect.mk.injEq]
  norm_num

lemma handleMouseMove_size (b : Bool) (nw cw : Option ℚ) (st : DragState)
    (m : ℚ × ℚ) (prev : CropRect) :
    (handleMouseMove b nw cw st m prev).size = prev.size := by
  unfold handleMouseMove
  cases b
  · simp
  · cases nw with
    | none => simp
    | some n =>
      cases cw with
      | none => simp
      | some r =>
        simp only [Bool.not_true, Bool.false_eq_true, if_false]
        split
        · rfl
        · rfl

lemma foldl_mouseMove_size (nw cw : Option ℚ) (st : DragState) :
    ∀ (moves : List (ℚ × ℚ)) (c : CropRect),
      (moves.foldl (fun acc m => handleMouseMove true nw cw st m acc) c).size
        = c.size := by
  intro moves
  induction moves with
  | nil => intro c; rfl
  | cons m ms ih =>
      intro c
      rw [List.foldl_cons, ih]
      exact handleMouseMove_size _ _ _ _ _ _

/-! ### Claim theorems -/

/-- C1: for every BoundingBox with 0 ≤ xmin < xmax ≤ 1000 and
0 ≤ ymin < ymax ≤ 1000 and positive image width and height,
`calculateSmartCrop` returns a CropRect whose centre (x + size/2, y + size/2)
equals the box's pixel-space centre, and whose size equals
1.1 × max(pixel width, pixel height); in particular, box
(ymin 100, xmin 200, ymax 500, xmax 600) on a 1000×1000 image gives
(x 180, y 80, size 440). -/
theorem calculateSmartCrop_center_size (box : BoundingBox) (W H : ℚ)
    (hx0 : 0 ≤ box.xmin) (hx : box.xmin < box.xmax) (hx1 : box.xmax ≤ 1000)
    (hy0 : 0 ≤ box.ymin) (hy : box.ymin < box.ymax) (hy1 : box.ymax ≤ 1000)
    (hW : 0 < W) (hH : 0 < H) :
    (calculateSmartCrop box W H).x + (calculateSmartCrop box W H).size / 2
        = (box.xmin / 1000 * W + box.xmax / 1000 * W) / 2 ∧
    (calculateSmartCrop box W H).y + (calculateSmartCrop box W H).size / 2
        = (box.ymin / 1000 * H + box.ymax / 1000 * H) / 2 ∧
    (calculateSmartCrop box W H).size
        = 11 / 10 * max ((box.xmax - box.xmin) / 1000 * W)
            ((box.ymax - box.ymin) / 1000 * H) ∧
    calculateSmartCrop ⟨100, 200, 500, 600⟩ 1000 1000 = ⟨180, 80, 440⟩ := by
  refine ⟨?_, ?_, ?_, calculateSmartCrop_example⟩
  · rw [calculateSmartCrop_x_eq]
    ring
  · rw [calculateSmartCrop_y_eq]
    ring
  · rw [calculateSmartCrop_size_eq]
    have e1 : box.xmax / 1000 * W - box.xmin / 1000 * W
        = (box.xmax - box.xmin) / 1000 * W := by ring
    have e2 : box.ymax / 1000 * H - box.ymin / 1000 * H
        = (box.ymax - box.ymin) / 1000 * H := by ring
    rw [e1, e2, mul_comm]

/-- Witness for C1 at the spec's example input. -/
theorem calculateSmartCrop_center_size_witness :
    calculateSmartCrop ⟨100, 200, 500, 600⟩ 1000 1000 = ⟨180, 80, 440⟩ :=
  (calculateSmartCrop_center_size ⟨100, 200, 500, 600⟩ 1000 1000
    (by norm_num) (by norm_num) (by norm_num) (by norm_num) (by norm_num)
    (by norm_num) (by norm_num) (by norm_num)).2.2.2

/-- C2: the slider resize keeps the crop centre fixed: the new origin is the
old origin plus (oldSize - newSize)/2 on each axis, the centre is invariant,
and resizing with s1 then s2 yields the same final centre (indeed the same
rectangle) as resizing directly to s2. -/
theorem handleSizeChange_center (crop : CropRect) (s1 s2 : ℚ) :
    (handleSizeChange true crop s1).x = crop.x + (crop.size - s1) / 2 ∧
    (handleSizeChange true crop s1).y = crop.y + (crop.size - s1) / 2 ∧
    (handleSizeChange true crop s1).size = s1 ∧
    (handleSizeChange true crop s1).x + (handleSizeChange true crop s1).size / 2
        = crop.x + crop.size / 2 ∧
    (handleSizeChange true crop s1).y + (handleSizeChange true crop s1).size / 2
        = crop.y + crop.size / 2 ∧
    (handleSizeChange true (handleSizeChange true crop s1) s2).x
          + (handleSizeChange true (handleSizeChange true crop s1) s2).size / 2
        = (handleSizeChange true crop s2).x + (handleSizeChange true crop s2).size / 2 ∧
    (handleSizeChange true (handleSizeChange true crop s1) s2).y
          + (handleSizeChange true (handleSizeChange true crop s1) s2).size / 2
        = (handleSizeChange true crop s2).y + (handleSizeChange true crop s2).size / 2 := by
  refine ⟨?_, ?_, ?_, ?_, ?_, ?_, ?_⟩
  all_goals simp only [handleSizeChange, Bool.not_true, Bool.false_eq_true, if_false]
  all_goals ring

/-- C3: during a drag the crop origin is the anchored origin plus the screen
delta times scale, where scale = naturalWidth / renderedWidth; in particular a
(10,10) screen delta at scale 2 (natural width 1000, rendered width 500)
moves the origin by (20,20). -/
theorem handleMouseMove_scaled_delta (st : DragState) (nw rw : ℚ)
    (client : ℚ × ℚ) (prev : CropRect) (hrw : rw ≠ 0) :
    handleMouseMove true (some nw) (some rw) st client prev
      = { prev with
            x := st.startCropPos.1 + (client.1 - st.dragStart.1) * (nw / rw),
            y := st.startCropPos.2 + (client.2 - st.dragStart.2) * (nw / rw) } ∧
    handleMouseMove true (some 1000) (some 500) (handleMouseDown (0, 0) prev)
        (10, 10) prev
      = { prev with x := prev.x + 20, y := prev.y + 20 } := by
  constructor
  · simp only [handleMouseMove, Bool.not_true, Bool.false_eq_true, if_false,
      if_neg hrw]
  · simp only [handleMouseMove, handleMouseDown, Bool.not_true,
      Bool.false_eq_true, if_false]
    norm_num

/-- Witness for C3 at the spec's scale-2 example. -/
theorem handleMouseMove_scaled_delta_witness :
    handleMouseMove true (some 1000) (some 500)
        (handleMouseDown (0, 0) ⟨40, 50, 300⟩) (10, 10) ⟨40, 50, 300⟩
      = { x := 60, y := 70, size := 300 } := by
  have h := (handleMouseMove_scaled_delta (handleMouseDown (0, 0) ⟨40, 50, 300⟩)
    1000 500 (10, 10) ⟨40, 50, 300⟩ (by norm_num)).2
  rw [h]
  norm_num

/-- C10: a drag (any mouse-down anchor, any sequence of mouse-move events,
any image/container widths) changes only the crop origin, never its size. -/
theorem runDrag_preserves_size (imgNaturalWidth containerWidth : Option ℚ)
    (downClient : ℚ × ℚ) (c : CropRect) (moves : List (ℚ × ℚ)) :
    (runDrag imgNaturalWidth containerWidth downClient c moves).size = c.size := by
  unfold runDrag
  exact foldl_mouseMove_size imgNaturalWidth containerWidth
    (handleMouseDown downClient c) moves c

/-- C4 counterexample: for the fully degenerate box (all coordinates 0) on a
1000×1000 image, `calculateSmartCrop` returns size 0, so not every returned
CropRect has size strictly greater than 0. -/
theorem calculateSmartCrop_size_not_pos :
    ¬ (0 < (calculateSmartCrop ⟨0, 0, 0, 0⟩ 1000 1000).size) := by
  rw [calculateSmartCrop_size_eq]
  norm_num

/-- C4 amended: for every BoundingBox in which at least one axis is
non-degenerate in the right order (xmin < xmax or ymin < ymax) and positive
image dimensions, `calculateSmartCrop` returns a CropRect with size > 0. -/
theorem calculateSmartCrop_size_pos (box : BoundingBox) (W H : ℚ)
    (hW : 0 < W) (hH : 0 < H)
    (hbox : box.xmin < box.xmax ∨ box.ymin < box.ymax) :
    0 < (calculateSmartCrop box W H).size := by
  rw [calculateSmartCrop_size_eq]
  have hmax : 0 < max (box.xmax / 1000 * W - box.xmin / 1000 * W)
      (box.ymax / 1000 * H - box.ymin / 1000 * H) := by
    rcases hbox with h | h
    · apply lt_max_of_lt_left
      have : 0 < (box.xmax - box.xmin) / 1000 * W := by
        apply mul_pos _ hW
        apply div_pos (by linarith) (by norm_num)
      linarith [this]
    · apply lt_max_of_lt_right
      have : 0 < (box.ymax - box.ymin) / 1000 * H := by
        apply mul_pos _ hH
        apply div_pos (by linarith) (by norm_num)
      linarith [this]
  positivity

/-- Witness for the amended C4 at the spec's example box. -/
theorem calculateSmartCrop_size_pos_witness :
    0 < (calculateSmartCrop ⟨100, 200, 500, 600⟩ 1000 1000).size :=
  calculateSmartCrop_size_pos ⟨100, 200, 500, 600⟩ 1000 1000
    (by norm_num) (by norm_num) (Or.inl (by norm_num))

/-- C5: with positive image dimensions, a box degenerate in y (ymin = ymax,
with the x axis properly ordered) gives size 1.1 × pixel width; a box
degenerate in x gives size 1.1 × pixel height; a box degenerate in both axes
gives size 0. -/
theorem calculateSmartCrop_degenerate (box : BoundingBox) (W H : ℚ)
    (hW : 0 < W) (hH : 0 < H) :
    (box.ymin = box.ymax → box.xmin ≤ box.xmax →
      (calculateSmartCrop box W H).size
        = 11 / 10 * ((box.xmax - box.xmin) / 1000 * W)) ∧
    (box.xmin = box.xmax → box.ymin ≤ box.ymax →
      (calculateSmartCrop box W H).size
        = 11 / 10 * ((box.ymax - box.ymin) / 1000 * H)) ∧
    (box.ymin = box.ymax → box.xmin = box.xmax →
      (calculateSmartCrop box W H).size = 0) := by
  refine ⟨?_, ?_, ?_⟩
  · intro hy hx
    rw [calculateSmartCrop_size_eq, hy]
    have hzero : box.ymax / 1000 * H - box.ymax / 1000 * H = 0 := by ring
    rw [hzero]
    have hw : 0 ≤ box.xmax / 1000 * W - box.xmin / 1000 * W := by
      have e : box.xmax / 1000 * W - box.xmin / 1000 * W
          = (box.xmax - box.xmin) / 1000 * W := by ring
      rw [e]
      apply mul_nonneg _ hW.le
      apply div_nonneg (by linarith) (by norm_num)
    rw [max_eq_left hw]
    ring
  · intro hx hy
    rw [calculateSmartCrop_size_eq, hx]
    have hzero : box.xmax / 1000 * W - box.xmax / 1000 * W = 0 := by ring
    rw [hzero]
    have hh : 0 ≤ box.ymax / 1000 * H - box.ymin / 1000 * H := by
      have e : box.ymax / 1000 * H - box.ymin / 1000 * H
          = (box.ymax - box.ymin) / 1000 * H := by ring
      rw [e]
      apply mul_nonneg _ hH.le
      apply div_nonneg (by linarith) (by norm_num)
    rw [max_eq_right hh]
    ring
  · intro hy hx
    rw [calculateSmartCrop_size_eq, hy, hx]
    have h1 : box.ymax / 1000 * H - box.ymax / 1000 * H = 0 := by ring
    have h2 : box.xmax / 1000 * W - box.xmax / 1000 * W = 0 := by ring
    rw [h1, h2]
    norm_num

/-- Witness for C5: a y-degenerate box, an x-degenerate box, and a fully
degenerate box, all on a 1000×800 image. -/
theorem calculateSmartCrop_degenerate_witness :
    (calculateSmartCrop ⟨300, 200, 300, 600⟩ 1000 800).size
        = 11 / 10 * ((600 - 200) / 1000 * 1000) ∧
    (calculateSmartCrop ⟨100, 250, 500, 250⟩ 1000 800).size
        = 11 / 10 * ((500 - 100) / 1000 * 800) ∧
    (calculateSmartCrop ⟨300, 250, 300, 250⟩ 1000 800).size = 0 :=
  ⟨(calculateSmartCrop_degenerate ⟨300, 200, 300, 600⟩ 1000 800
      (by norm_num) (by norm_num)).1 rfl (by norm_num),
   (calculateSmartCrop_degenerate ⟨100, 250, 500, 250⟩ 1000 800
      (by norm_num) (by norm_num)).2.1 rfl (by norm_num),
   (calculateSmartCrop_degenerate ⟨300, 250, 300, 250⟩ 1000 800
      (by norm_num) (by norm_num)).2.2 rfl rfl⟩

/-- C6: the editor never mutates the committed crop until confirmation:
cancel only moves the app state to SUCCESS, leaving the committed crop (and
everything else) unchanged after any sequence of drag and resize edits, while
confirming replaces the committed crop with the edited rectangle. -/
theorem editor_commit_discipline (s : AppSession) (imgNW cw : Option ℚ)
    (edits : List EditorEvent) (renderRes : Except String String)
    (src : String) (c0 : CropRect) (hsrc : s.sourceImage = some src) :
    cancelEditor s = { s with appState := .SUCCESS } ∧
    (cancelEditor s).currentCrop = s.currentCrop ∧
    (cancelEditor s).croppedImage = s.croppedImage ∧
    (handleManualCropConfirm s (runEditor imgNW cw c0 edits) renderRes).currentCrop
      = some (runEditor imgNW cw c0 edits) := by
  refine ⟨rfl, rfl, rfl, ?_⟩
  unfold handleManualCropConfirm
  rw [hsrc]
  cases renderRes with
  | error e => rfl
  | ok url => rfl

/-- Witness for C6 on a concrete session and edit list. -/
theorem editor_commit_discipline_witness :
    cancelEditor sessionFresh = { sessionFresh with appState := .SUCCESS } ∧
    (cancelEditor sessionFresh).currentCrop = sessionFresh.currentCrop ∧
    (cancelEditor sessionFresh).croppedImage = sessionFresh.croppedImage ∧
    (handleManualCropConfirm sessionFresh
        (runEditor (some 1000) (some 500) ⟨0, 0, 100⟩
          [.resize 200, .drag ⟨(0, 0), (0, 0)⟩ (10, 10)]) (.ok "url")).currentCrop
      = some (runEditor (some 1000) (some 500) ⟨0, 0, 100⟩
          [.resize 200, .drag ⟨(0, 0), (0, 0)⟩ (10, 10)]) :=
  editor_commit_discipline sessionFresh (some 1000) (some 500)
    [.resize 200, .drag ⟨(0, 0), (0, 0)⟩ (10, 10)] (.ok "url") "data-url"
    ⟨0, 0, 100⟩ rfl

/-- C7 counterexample: a rendering failure after a successful detection leaves
the detection results and the computed crop committed (the session is
partially updated), and a failed manual-crop application leaves the app state
at CROPPING — not ERROR — with the new crop already committed. -/
theorem failure_partial_state_counterexample :
    (processImage (.ok detailsEx) (.ok (1000, 1000)) (.error "render failed")
        sessionFresh).appState = .ERROR ∧
    (processImage (.ok detailsEx) (.ok (1000, 1000)) (.error "render failed")
        sessionFresh).garmentDetails = some detailsEx ∧
    (processImage (.ok detailsEx) (.ok (1000, 1000)) (.error "render failed")
        sessionFresh).currentCrop = some ⟨180, 80, 440⟩ ∧
    (handleManualCropConfirm sessionFresh ⟨0, 0, 100⟩ (.error "render failed")).appState
      = .CROPPING ∧
    (handleManualCropConfirm sessionFresh ⟨0, 0, 100⟩ (.error "render failed")).currentCrop
      = some ⟨0, 0, 100⟩ := by
  refine ⟨rfl, rfl, ?_, rfl, rfl⟩
  have h : (processImage (.ok detailsEx) (.ok (1000, 1000)) (.error "render failed")
      sessionFresh).currentCrop = some (calculateSmartCrop ⟨100, 200, 500, 600⟩ 1000 1000) := rfl
  rw [h, calculateSmartCrop_example]

/-- C7 amended: every failure ends the attempt, but earlier completed steps
stay committed.  An input-read failure ends in ERROR with no partial results;
a detection failure ends in ERROR leaving detection results and crop
untouched; a rendering failure after successful detection ends in ERROR but
retains the already-committed detection results and computed crop; a failed
manual-crop application records an error message but leaves the app state at
CROPPING with the new crop already committed. -/
theorem error_handling_amended (s : AppSession) (nm : List Char) (msg : String)
    (d : GarmentDetails) (w h : ℚ) (c : CropRect) (src : String)
    (dRes : Except String GarmentDetails) (lRes : Except String (ℚ × ℚ))
    (rRes : Except String String) :
    ((handleFileUpload nm (.error msg) dRes lRes rRes s).appState = .ERROR ∧
      (handleFileUpload nm (.error msg) dRes lRes rRes s).garmentDetails = none ∧
      (handleFileUpload nm (.error msg) dRes lRes rRes s).currentCrop = none ∧
      (handleFileUpload nm (.error msg) dRes lRes rRes s).croppedImage = none ∧
      (handleFileUpload nm (.error msg) dRes lRes rRes s).errorMsg
        = some "Failed to load image file.") ∧
    ((processImage (.error msg) lRes rRes s).appState = .ERROR ∧
      (processImage (.error msg) lRes rRes s).garmentDetails = s.garmentDetails ∧
      (processImage (.error msg) lRes rRes s).currentCrop = s.currentCrop ∧
      (processImage (.error msg) lRes rRes s).croppedImage = s.croppedImage) ∧
    ((processImage (.ok d) (.ok (w, h)) (.error msg) s).appState = .ERROR ∧
      (processImage (.ok d) (.ok (w, h)) (.error msg) s).garmentDetails = some d ∧
      (processImage (.ok d) (.ok (w, h)) (.error msg) s).currentCrop
        = some (calculateSmartCrop (d.textureBox.getD d.box) w h)) ∧
    (s.sourceImage = some src →
      (handleManualCropConfirm s c (.error msg)).appState = .CROPPING ∧
      (handleManualCropConfirm s c (.error msg)).currentCrop = some c ∧
      (handleManualCropConfirm s c (.error msg)).errorMsg
        = some "Failed to apply manual crop") := by
  refine ⟨⟨rfl, rfl, rfl, rfl, rfl⟩, ⟨rfl, rfl, rfl, rfl⟩, ⟨rfl, rfl, rfl⟩, ?_⟩
  intro hsrc
  unfold handleManualCropConfirm
  rw [hsrc]
  exact ⟨rfl, rfl, rfl⟩

/-- Witness for the amended C7 on a concrete session. -/
theorem error_handling_amended_witness :
    (handleManualCropConfirm sessionFresh ⟨5, 6, 50⟩ (.error "boom")).appState
        = .CROPPING ∧
    (handleManualCropConfirm sessionFresh ⟨5, 6, 50⟩ (.error "boom")).errorMsg
        = some "Failed to apply manual crop" :=
  ⟨((error_handling_amended sessionFresh "a".toList "boom" detailsEx 1000 1000
      ⟨5, 6, 50⟩ "data-url" (.error "boom") (.error "boom") (.error "boom")).2.2.2
        rfl).1,
   ((error_handling_amended sessionFresh "a".toList "boom" detailsEx 1000 1000
      ⟨5, 6, 50⟩ "data-url" (.error "boom") (.error "boom") (.error "boom")).2.2.2
        rfl).2.2⟩

/-- C8: `performCrop` fills the whole output surface with opaque white before
drawing, so a CropRect (of nonnegative size) lying entirely outside the
source image bounds renders every pixel of the requested output as the white
fill color. -/
theorem performCrop_outside_white (img : SourceImage) (crop : CropRect) (N : ℕ)
    (hsize : 0 ≤ crop.size)
    (hout : crop.x + crop.size ≤ 0 ∨ img.width ≤ crop.x ∨
            crop.y + crop.size ≤ 0 ∨ img.height ≤ crop.y) :
    ∀ dx dy : ℕ, dx < N → dy < N → performCrop img crop N dx dy = whiteColor := by
  intro dx dy hdx hdy
  simp only [performCrop, drawImagePixel, fillRect]
  rcases eq_or_lt_of_le hsize with h0 | hpos
  · rw [if_pos h0.symm]
  · rw [if_neg (ne_of_gt hpos)]
    have hN : (0 : ℚ) < (N : ℚ) := by
      have : 0 < N := lt_of_le_of_lt (Nat.zero_le dx) hdx
      exact_mod_cast this
    have hdx1 : (dx : ℚ) + 1 / 2 < (N : ℚ) := by
      have : (dx : ℚ) + 1 ≤ (N : ℚ) := by exact_mod_cast hdx
      linarith
    have hdy1 : (dy : ℚ) + 1 / 2 < (N : ℚ) := by
      have : (dy : ℚ) + 1 ≤ (N : ℚ) := by exact_mod_cast hdy
      linarith
    have hxlo : (0 : ℚ) < ((dx : ℚ) + 1 / 2) * crop.size / (N : ℚ) := by
      apply div_pos _ hN
      apply mul_pos _ hpos
      positivity
    have hylo : (0 : ℚ) < ((dy : ℚ) + 1 / 2) * crop.size / (N : ℚ) := by
      apply div_pos _ hN
      apply mul_pos _ hpos
      positivity
    have hxhi : ((dx : ℚ) + 1 / 2) * crop.size / (N : ℚ) < crop.size := by
      rw [div_lt_iff₀ hN]
      nlinarith
    have hyhi : ((dy : ℚ) + 1 / 2) * crop.size / (N : ℚ) < crop.size := by
      rw [div_lt_iff₀ hN]
      nlinarith
    split
    · next hin =>
        exfalso
        obtain ⟨h1, h2, h3, h4⟩ := hin
        rcases hout with hcase | hcase | hcase | hcase
        · linarith
        · linarith
        · linarith
        · linarith
    · rfl

/-- Witness for C8: a crop square far to the right of a 100×100 image renders
a white pixel. -/
theorem performCrop_outside_white_witness :
    performCrop imgEx ⟨500, 500, 50⟩ 4 1 2 = whiteColor :=
  performCrop_outside_white imgEx ⟨500, 500, 50⟩ 4 (by norm_num)
    (Or.inr (Or.inl (by norm_num [imgEx]))) 1 2 (by norm_num) (by norm_num)

/-- C9: the sanitized color suffix keeps only alphanumeric characters and
hyphens, and the download name for original filename "photo.png" with
detected color "Navy Blue!" is "photo_NavyBlue.jpg" (extension stripped,
suffix sanitized, fixed ".jpg" extension appended). -/
theorem handleDownload_name (col : List Char) :
    (∀ c ∈ sanitizeColor col, c.isAlphanum = true ∨ c = '-') ∧
    handleDownload sessionDownloadEx = some "photo_NavyBlue.jpg".toList := by
  constructor
  · intro c hc
    simp only [sanitizeColor, List.mem_filter, Bool.or_eq_true, beq_iff_eq] at hc
    exact hc.2
  · rfl

/-- Witness for C9 at the character N of the sanitized example color. -/
theorem handleDownload_name_witness :
    ('N'.isAlphanum = true ∨ 'N' = '-') ∧
    handleDownload sessionDownloadEx = some "photo_NavyBlue.jpg".toList :=
  ⟨(handleDownload_name "Navy Blue!".toList).1 'N' (by decide),
   (handleDownload_name "Navy Blue!".toList).2⟩

end SmartCrop
